import Mathlib

/-!
Shallow embedding of `flask_security/datastore.py`: the generic
`UserDatastore` operations and the Google-Cloud-Datastore (`NDB`) backed
subclass `NDBUserDatastore`.

Conventions of the embedding:
* Python `None` is `Option.none`; a lookup miss is `none`.
* An operation that would raise an `AttributeError` at runtime (attribute
  access on `None`) is embedded as a function returning `Option _`, where the
  result `none` marks the raise; `some` is normal return.
* The NDB backend's persistent store is an explicit `NDBState` threaded
  through every operation; `model.put()` / `user.put()` become `put_user` /
  `put_role` (upsert by key), and each mutating operation also reports the
  list of entities it saved, so that "no persistence call happened" is the
  statement that this list is empty and the store component unchanged.
* Python string-or-entity polymorphic arguments become sum types
  (`Sum Entity String`); `isinstance(x, string_types)` is the match on the
  right injection.
* Python truthiness in conditions (`if id:`, `if email:`, `if user:`) is
  embedded exactly: `0`, `""` and `None` are falsy, entities are truthy.
-/

namespace FlaskSecurity

/-- A role entity: named permission grouping with a description
(`role_model` of the repository). -/
structure Role where
  name : String
  description : String
deriving DecidableEq, Repr

/-- A user record of the generic backend: role membership is a list of role
entities. Because `_prepare_role_modify_args` and
`_prepare_create_user_args` can produce Python `None` where a role is
expected and the generic code stores that value into `user.roles`
unchanged, the element type of the membership list is `Option Role`. -/
structure User where
  email : String
  username : Option String
  active : Bool
  roles : List (Option Role)
deriving DecidableEq, Repr

/-- A user record of the NDB backend: role membership is denormalized as a
list of role names (`role_names`), and the entity has an integer key id. -/
structure NDBUser where
  id : Nat
  email : String
  username : Option String
  active : Bool
  role_names : List String
deriving DecidableEq, Repr

/-- The NDB backend store: the persisted user and role entities, plus the
counter the backend uses to hand out fresh integer ids at `put`. -/
structure NDBState where
  users : List NDBUser
  roles : List Role
  next_id : Nat
deriving DecidableEq, Repr

/-- `user_model.get_by_id(i)`: primary-key fetch. -/
def get_by_id (s : NDBState) (i : Nat) : Option NDBUser :=
  s.users.find? (fun u => u.id == i)

/-- `user_model.query(user_model.email == e).get()`: first stored user whose
email property equals `e` exactly. -/
def query_email (s : NDBState) (e : String) : Option NDBUser :=
  s.users.find? (fun u => u.email == e)

/-- `user_model.query(user_model.username == n).get()`: first stored user
whose username property equals `n` exactly (a user without a username has
property value `None` and never matches). -/
def query_username (s : NDBState) (n : String) : Option NDBUser :=
  s.users.find? (fun u => u.username == some n)

/-- `role_model.query(role_model.name == n).get()`. -/
def query_role_name (s : NDBState) (n : String) : Option Role :=
  s.roles.find? (fun r => r.name == n)

/-- `user.put()` / `NDBDatastore.put` on a user entity: upsert by key id. -/
def put_user (s : NDBState) (u : NDBUser) : NDBState :=
  if s.users.any (fun v => v.id == u.id) then
    { s with users := s.users.map (fun v => if v.id == u.id then u else v) }
  else
    { s with users := s.users ++ [u] }

/-- `role.put()` / `NDBDatastore.put` on a role entity: upsert by key (the
role model is keyed by its name). -/
def put_role (s : NDBState) (r : Role) : NDBState :=
  if s.roles.any (fun x => x.name == r.name) then
    { s with roles := s.roles.map (fun x => if x.name == r.name then r else x) }
  else
    { s with roles := s.roles ++ [r] }

/-- The name a `roles` argument entry contributes in
`_prepare_create_user_args`: `role.name if isinstance(role, role_model) else
role`. -/
def role_arg_name : Sum Role String → String
  | Sum.inl r => r.name
  | Sum.inr n => n

/-- Embedding of Python `str.lower()`: lowercase each character (the
identifiers in this module are ASCII, where `Char.toLower` agrees with
Python's lowercasing). -/
def py_lower (s : String) : String :=
  String.mk (s.data.map Char.toLower)

/-- Python truthiness of an optional integer (`if id:`). -/
def truthy_nat : Option Nat → Bool
  | some i => i != 0
  | none => false

/-- Python truthiness of an optional string (`if email:`). -/
def truthy_str : Option String → Bool
  | some str => str != ""
  | none => false

namespace UserDatastore

/-- `UserDatastore._prepare_role_modify_args`, parametrized by the backend
lookups `self.find_user(email=...)` and `self.find_role(...)`: a string
argument is resolved through the lookup, an entity argument passes through;
a lookup miss leaves `none` in the returned pair. -/
def _prepare_role_modify_args (find_user : String → Option User)
    (find_role : String → Option Role)
    (user : Sum User String) (role : Sum Role String) :
    Option User × Option Role :=
  ((match user with
    | Sum.inl u => some u
    | Sum.inr str => find_user str),
   (match role with
    | Sum.inl r => some r
    | Sum.inr str => find_role str))

/-- `UserDatastore.add_role_to_user`. Result `none` is the `AttributeError`
raised by `user.roles` when the user argument failed to resolve; otherwise
`some (rv, user', put_called)`: the returned boolean, the updated user
record, and whether `self.put(user)` ran. Note the membership test
`role not in user.roles` compares the *resolved* role value, which may be
Python `None`. -/
def add_role_to_user (find_user : String → Option User)
    (find_role : String → Option Role)
    (user : Sum User String) (role : Sum Role String) :
    Option (Bool × User × Bool) :=
  match _prepare_role_modify_args find_user find_role user role with
  | (none, _) => none
  | (some u, r) =>
    if r ∈ u.roles then
      some (false, u, false)
    else
      some (true, { u with roles := u.roles ++ [r] }, true)

/-- `UserDatastore.remove_role_from_user`. Result `none` is the
`AttributeError` on an unresolved user; `user.roles.remove(role)` removes
the first occurrence, i.e. `List.erase`. -/
def remove_role_from_user (find_user : String → Option User)
    (find_role : String → Option Role)
    (user : Sum User String) (role : Sum Role String) :
    Option (Bool × User × Bool) :=
  match _prepare_role_modify_args find_user find_role user role with
  | (none, _) => none
  | (some u, r) =>
    if r ∈ u.roles then
      some (true, { u with roles := u.roles.erase r }, true)
    else
      some (false, u, false)

/-- `UserDatastore.toggle_active`: flips the in-memory flag, returns `True`,
performs no persistence call. -/
def toggle_active (user : User) : User × Bool :=
  ({ user with active := !user.active }, true)

/-- `UserDatastore.deactivate_user`. -/
def deactivate_user (user : User) : User × Bool :=
  if user.active then
    ({ user with active := false }, true)
  else
    (user, false)

/-- `UserDatastore.activate_user`. -/
def activate_user (user : User) : User × Bool :=
  if !user.active then
    ({ user with active := true }, true)
  else
    (user, false)

/-- `UserDatastore._prepare_create_user_args`, parametrized by
`self.find_role`: defaults `active` to `True` when absent and replaces every
entry of the `roles` list by the result of `find_role` on its name — an
unresolved name becomes Python `None` *inside* the list. -/
def _prepare_create_user_args (find_role : String → Option Role)
    (active : Option Bool) (roles : List (Sum Role String)) :
    Bool × List (Option Role) :=
  (active.getD true, roles.map (fun ra => find_role (role_arg_name ra)))

/-- `UserDatastore.create_user` (generic backend): builds the user from the
prepared kwargs and persists it; the boolean reports that `self.put` ran. -/
def create_user (find_role : String → Option Role)
    (email : String) (username : Option String)
    (active : Option Bool) (roles : List (Sum Role String)) : User × Bool :=
  let args := _prepare_create_user_args find_role active roles
  ({ email := email, username := username, active := args.1,
     roles := args.2 }, true)

end UserDatastore

namespace NDBUserDatastore

/-- `NDBUserDatastore.find_role`. -/
def find_role (s : NDBState) (role_name : String) : Option Role :=
  query_role_name s role_name

/-- `NDBUserDatastore.find_user(email=..., id=...)`. The guards `if id:`
and `if email:` are Python truthiness: `None`, `0` and `""` all fall
through. A truthy id returns the primary-key fetch; otherwise a truthy
email is lowercased and looked up by exact email match; otherwise `None`
is returned. -/
def find_user (s : NDBState) (email : Option String) (id : Option Nat) :
    Option NDBUser :=
  if truthy_nat id then
    get_by_id s (id.getD 0)
  else if truthy_str email then
    query_email s (py_lower (email.getD ""))
  else
    none

/-- `NDBUserDatastore.get_user(id_or_email)`: integer input is a
primary-key fetch; string input is lowercased, then looked up by exact
email match, then by exact username match; `None` if all tiers miss. -/
def get_user (s : NDBState) (id_or_email : Sum Nat String) : Option NDBUser :=
  match id_or_email with
  | Sum.inl i => get_by_id s i
  | Sum.inr str =>
    let email_or_username := py_lower str
    match query_email s email_or_username with
    | some u => some u
    | none =>
      match query_username s email_or_username with
      | some u => some u
      | none => none

/-- `UserDatastore._prepare_role_modify_args` as inherited by the NDB
backend: a string user argument goes through `self.find_user(email=...)`,
a string role argument through `self.find_role`. -/
def _prepare_role_modify_args (s : NDBState)
    (user : Sum NDBUser String) (role : Sum Role String) :
    Option NDBUser × Option Role :=
  ((match user with
    | Sum.inl u => some u
    | Sum.inr str => find_user s (some str) none),
   (match role with
    | Sum.inl u => some u
    | Sum.inr str => find_role s str))

/-- `NDBUserDatastore.add_role_to_user`. The test
`role.name in user.role_names` dereferences both resolved arguments, so an
unresolved user *or* role raises (`none`). On success:
`some (rv, store', puts)` where `puts` lists the entities saved by
`user.put()`. -/
def add_role_to_user (s : NDBState)
    (user : Sum NDBUser String) (role : Sum Role String) :
    Option (Bool × NDBState × List NDBUser) :=
  match _prepare_role_modify_args s user role with
  | (some u, some r) =>
    if r.name ∈ u.role_names then
      some (false, s, [])
    else
      let u' := { u with role_names := u.role_names ++ [r.name] }
      some (true, put_user s u', [u'])
  | _ => none

/-- `NDBUserDatastore.remove_role_from_user`;
`user.role_names.remove(role.name)` removes the first occurrence
(`List.erase`). -/
def remove_role_from_user (s : NDBState)
    (user : Sum NDBUser String) (role : Sum Role String) :
    Option (Bool × NDBState × List NDBUser) :=
  match _prepare_role_modify_args s user role with
  | (some u, some r) =>
    if r.name ∈ u.role_names then
      let u' := { u with role_names := u.role_names.erase r.name }
      some (true, put_user s u', [u'])
    else
      some (false, s, [])
  | _ => none

/-- `[r.name for r in roles]` in `NDBUserDatastore.create_user`: the
comprehension dereferences each element in order and raises (`none`) at the
first Python `None` left by an unresolved role name. -/
def role_names_of : List (Option Role) → Option (List String)
  | [] => some []
  | none :: _ => none
  | some r :: rest =>
    match role_names_of rest with
    | none => none
    | some ns => some (r.name :: ns)

/-- `NDBUserDatastore.create_user`: prepares kwargs via the generic
`_prepare_create_user_args` (over this backend's `find_role`), converts the
resolved roles to their names — raising on any unresolved one — then
constructs the user and persists it with a fresh id. -/
def create_user (s : NDBState) (email : String) (username : Option String)
    (active : Option Bool) (roles : List (Sum Role String)) :
    Option (NDBUser × NDBState) :=
  let args := UserDatastore._prepare_create_user_args (find_role s) active roles
  match role_names_of args.2 with
  | none => none
  | some ns =>
    let u : NDBUser := { id := s.next_id, email := email, username := username,
                         active := args.1, role_names := ns }
    some (u, { put_user s u with next_id := s.next_id + 1 })

/-- `UserDatastore.create_role` as inherited by the NDB backend:
`role_model(**kwargs)` then `self.put(role)`. -/
def create_role (s : NDBState) (name description : String) : Role × NDBState :=
  let r : Role := { name := name, description := description }
  (r, put_role s r)

/-- `UserDatastore.find_or_create_role` as inherited by the NDB backend:
`self.find_role(name) or self.create_role(name=name, **kwargs)` — an entity
is truthy, `None` is falsy. -/
def find_or_create_role (s : NDBState) (name description : String) :
    Role × NDBState :=
  match find_role s name with
  | some r => (r, s)
  | none => create_role s name description

/-- `UserDatastore.delete_user` as inherited by the NDB backend:
`self.delete(user)` is `model.key.delete()`, removal by key id. -/
def delete_user (s : NDBState) (u : NDBUser) : NDBState :=
  { s with users := s.users.filter (fun v => v.id != u.id) }

/-- `UserDatastore.toggle_active` running against the NDB backend: the
in-memory entity is mutated, `True` returned, and — there being no
`put`/`delete`/`commit` in its body — the store is untouched and no entity
is saved. Result: `(user', rv, store', puts)`. -/
def toggle_active (s : NDBState) (user : NDBUser) :
    NDBUser × Bool × NDBState × List NDBUser :=
  ({ user with active := !user.active }, true, s, [])

/-- `UserDatastore.activate_user` against the NDB backend (no persistence
call in its body). -/
def activate_user (s : NDBState) (user : NDBUser) :
    NDBUser × Bool × NDBState × List NDBUser :=
  if !user.active then
    ({ user with active := true }, true, s, [])
  else
    (user, false, s, [])

/-- `UserDatastore.deactivate_user` against the NDB backend (no persistence
call in its body). -/
def deactivate_user (s : NDBState) (user : NDBUser) :
    NDBUser × Bool × NDBState × List NDBUser :=
  if user.active then
    ({ user with active := false }, true, s, [])
  else
    (user, false, s, [])

end NDBUserDatastore

/-- Constraint on the string-or-entity `user` argument of the public role
operations: an entity argument is an entity previously obtained from the
store (string arguments are unconstrained — they go through lookup). -/
def user_arg_ok (s : NDBState) : Sum NDBUser String → Prop
  | Sum.inl u => u ∈ s.users
  | Sum.inr _ => True

namespace NDBUserDatastore

/-- The NDB-backend states reachable through the datastore's public
operations, starting from an empty store. An operation that raises (result
`none`) produces no state. -/
inductive Reachable : NDBState → Prop
  | init : Reachable { users := [], roles := [], next_id := 1 }
  | step_create_role (s : NDBState) (n d : String) :
      Reachable s → Reachable (create_role s n d).2
  | step_find_or_create_role (s : NDBState) (n d : String) :
      Reachable s → Reachable (find_or_create_role s n d).2
  | step_create_user (s : NDBState) (e : String) (un : Option String)
      (act : Option Bool) (roles : List (Sum Role String))
      (u : NDBUser) (s' : NDBState) :
      Reachable s → create_user s e un act roles = some (u, s') →
      Reachable s'
  | step_add_role (s : NDBState) (user : Sum NDBUser String)
      (role : Sum Role String) (b : Bool) (s' : NDBState) (l : List NDBUser) :
      Reachable s → user_arg_ok s user →
      add_role_to_user s user role = some (b, s', l) → Reachable s'
  | step_remove_role (s : NDBState) (user : Sum NDBUser String)
      (role : Sum Role String) (b : Bool) (s' : NDBState) (l : List NDBUser) :
      Reachable s → user_arg_ok s user →
      remove_role_from_user s user role = some (b, s', l) → Reachable s'
  | step_delete_user (s : NDBState) (u : NDBUser) :
      Reachable s → Reachable (delete_user s u)

/-- The same transition system with `create_user` restricted to role lists
naming no role twice — the restriction the amended claim C6 adds. -/
inductive ReachableND : NDBState → Prop
  | init : ReachableND { users := [], roles := [], next_id := 1 }
  | step_create_role (s : NDBState) (n d : String) :
      ReachableND s → ReachableND (create_role s n d).2
  | step_find_or_create_role (s : NDBState) (n d : String) :
      ReachableND s → ReachableND (find_or_create_role s n d).2
  | step_create_user (s : NDBState) (e : String) (un : Option String)
      (act : Option Bool) (roles : List (Sum Role String))
      (u : NDBUser) (s' : NDBState) :
      ReachableND s → (roles.map role_arg_name).Nodup →
      create_user s e un act roles = some (u, s') →
      ReachableND s'
  | step_add_role (s : NDBState) (user : Sum NDBUser String)
      (role : Sum Role String) (b : Bool) (s' : NDBState) (l : List NDBUser) :
      ReachableND s → user_arg_ok s user →
      add_role_to_user s user role = some (b, s', l) → ReachableND s'
  | step_remove_role (s : NDBState) (user : Sum NDBUser String)
      (role : Sum Role String) (b : Bool) (s' : NDBState) (l : List NDBUser) :
      ReachableND s → user_arg_ok s user →
      remove_role_from_user s user role = some (b, s', l) → ReachableND s'
  | step_delete_user (s : NDBState) (u : NDBUser) :
      ReachableND s → ReachableND (delete_user s u)

end NDBUserDatastore

/-- The user of the spec's `get_user` precedence scenario: id 7, email
"a@x.com", username "bob". -/
def bob_user : NDBUser :=
  { id := 7, email := "a@x.com", username := some "bob", active := true,
    role_names := [] }

def bob_state : NDBState := { users := [bob_user], roles := [], next_id := 8 }

def c8_user : User :=
  { email := "w@x.com", username := none, active := false, roles := [] }

def admin_role : Role := { name := "admin", description := "" }

def c4_user : User :=
  { email := "c4@x.com", username := none, active := true, roles := [] }

def c4_nuser : NDBUser :=
  { id := 3, email := "c4n@x.com", username := none, active := true,
    role_names := [] }

def c4_state : NDBState :=
  { users := [c4_nuser], roles := [admin_role], next_id := 4 }

def c7_user : User :=
  { email := "c7@x.com", username := none, active := true,
    roles := [some admin_role] }

def c7_nuser : NDBUser :=
  { id := 5, email := "c7n@x.com", username := none, active := true,
    role_names := ["admin"] }

def c7_state : NDBState :=
  { users := [c7_nuser], roles := [admin_role], next_id := 6 }

def c9_state : NDBState := { users := [], roles := [], next_id := 1 }

def c10_nuser : NDBUser :=
  { id := 9, email := "c10@x.com", username := none, active := true,
    role_names := [] }

def c10_state : NDBState :=
  { users := [c10_nuser], roles := [], next_id := 10 }

def c5_user : NDBUser :=
  { id := 0, email := "z@x.com", username := none, active := true,
    role_names := [] }

def c5_state : NDBState := { users := [c5_user], roles := [], next_id := 1 }

def c2_guser : User :=
  { email := "c2g@x.com", username := none, active := true, roles := [] }

def c2_nuser : NDBUser :=
  { id := 11, email := "c2@x.com", username := none, active := true,
    role_names := [] }

def c2_state : NDBState := { users := [c2_nuser], roles := [], next_id := 12 }

def c3_state : NDBState := { users := [], roles := [], next_id := 1 }

def dup_state0 : NDBState := { users := [], roles := [], next_id := 1 }

def dup_state1 : NDBState :=
  { users := [], roles := [admin_role], next_id := 1 }

def dup_user : NDBUser :=
  { id := 1, email := "d@x.com", username := none, active := true,
    role_names := ["admin", "admin"] }

def dup_state2 : NDBState :=
  { users := [dup_user], roles := [admin_role], next_id := 2 }

def good_user : NDBUser :=
  { id := 1, email := "g@x.com", username := none, active := true,
    role_names := ["admin"] }

def good_state : NDBState :=
  { users := [good_user], roles := [admin_role], next_id := 2 }

theorem put_role_users (s : NDBState) (r : Role) :
    (put_role s r).users = s.users := by
  unfold put_role
  split <;> rfl

theorem put_user_forall {P : NDBUser → Prop} {s : NDBState} {u : NDBUser}
    (hs : ∀ v ∈ s.users, P v) (hu : P u) :
    ∀ v ∈ (put_user s u).users, P v := by
  intro v hv
  unfold put_user at hv
  split at hv
  · simp only [List.mem_map] at hv
    obtain ⟨w, hw, hvw⟩ := hv
    by_cases hid : (w.id == u.id) = true
    · rw [if_pos hid] at hvw
      exact hvw ▸ hu
    · rw [if_neg hid] at hvw
      exact hvw ▸ hs w hw
  · simp only [List.mem_append, List.mem_singleton] at hv
    rcases hv with hv | hv
    · exact hs v hv
    · exact hv ▸ hu

theorem find_role_name {s : NDBState} {n : String} {r : Role}
    (h : NDBUserDatastore.find_role s n = some r) : r.name = n := by
  have hp := List.find?_some h
  simpa using hp

theorem find_user_mem {s : NDBState} {oe : Option String} {oi : Option Nat}
    {u : NDBUser} (h : NDBUserDatastore.find_user s oe oi = some u) :
    u ∈ s.users := by
  unfold NDBUserDatastore.find_user at h
  split at h
  · exact List.mem_of_find?_eq_some h
  · split at h
    · exact List.mem_of_find?_eq_some h
    · exact absurd h (by simp)

theorem role_names_of_resolved (s : NDBState) :
    ∀ (l : List (Sum Role String)) (ns : List String),
      NDBUserDatastore.role_names_of
          (l.map (fun ra => NDBUserDatastore.find_role s (role_arg_name ra))) =
        some ns →
      ns = l.map role_arg_name := by
  intro l
  induction l with
  | nil =>
    intro ns h
    simpa [NDBUserDatastore.role_names_of] using h.symm
  | cons ra rest ih =>
    intro ns h
    simp only [List.map_cons] at h
    cases hr : NDBUserDatastore.find_role s (role_arg_name ra) with
    | none => rw [hr] at h; exact absurd h (by simp [NDBUserDatastore.role_names_of])
    | some r =>
      rw [hr] at h
      unfold NDBUserDatastore.role_names_of at h
      cases hrest : NDBUserDatastore.role_names_of
          (rest.map (fun ra => NDBUserDatastore.find_role s (role_arg_name ra))) with
      | none => rw [hrest] at h; exact absurd h (by simp)
      | some ns' =>
        rw [hrest] at h
        simp only [Option.some.injEq] at h
        subst h
        simp [find_role_name hr, ih ns' hrest]

theorem nodup_append_singleton {α : Type} {l : List α} {a : α}
    (h : l.Nodup) (ha : a ∉ l) : (l ++ [a]).Nodup := by
  rw [List.nodup_append]
  refine ⟨h, List.nodup_singleton a, ?_⟩
  intro x hx hxa
  simp only [List.mem_singleton] at hxa
  exact ha (hxa ▸ hx)

theorem find_or_create_role_users (s : NDBState) (n d : String) :
    (NDBUserDatastore.find_or_create_role s n d).2.users = s.users := by
  unfold NDBUserDatastore.find_or_create_role
  split
  · rfl
  · simp [NDBUserDatastore.create_role, put_role_users]

/-- Characterization of a non-raising `NDBUserDatastore.add_role_to_user`
call: both arguments resolved, and the result is either the already-present
no-op or the append-and-save. -/
theorem add_role_to_user_some {s : NDBState} {user : Sum NDBUser String}
    {role : Sum Role String} {b : Bool} {s' : NDBState} {l : List NDBUser}
    (heq : NDBUserDatastore.add_role_to_user s user role = some (b, s', l)) :
    ∃ u r, NDBUserDatastore._prepare_role_modify_args s user role =
        (some u, some r) ∧
      ((r.name ∈ u.role_names ∧ b = false ∧ s' = s ∧ l = []) ∨
       (r.name ∉ u.role_names ∧ b = true ∧
        s' = put_user s { u with role_names := u.role_names ++ [r.name] } ∧
        l = [{ u with role_names := u.role_names ++ [r.name] }])) := by
  unfold NDBUserDatastore.add_role_to_user at heq
  rcases hp : NDBUserDatastore._prepare_role_modify_args s user role with ⟨ou, orr⟩
  rw [hp] at heq
  cases ou with
  | none => cases orr <;> simp at heq
  | some u =>
    cases orr with
    | none => simp at heq
    | some r =>
      refine ⟨u, r, rfl, ?_⟩
      by_cases hmem : r.name ∈ u.role_names
      · simp only [if_pos hmem, Option.some.injEq, Prod.mk.injEq] at heq
        exact Or.inl ⟨hmem, heq.1.symm, heq.2.1.symm, heq.2.2.symm⟩
      · simp only [if_neg hmem, Option.some.injEq, Prod.mk.injEq] at heq
        exact Or.inr ⟨hmem, heq.1.symm, heq.2.1.symm, heq.2.2.symm⟩

/-- Characterization of a non-raising
`NDBUserDatastore.remove_role_from_user` call. -/
theorem remove_role_from_user_some {s : NDBState} {user : Sum NDBUser String}
    {role : Sum Role String} {b : Bool} {s' : NDBState} {l : List NDBUser}
    (heq : NDBUserDatastore.remove_role_from_user s user role =
      some (b, s', l)) :
    ∃ u r, NDBUserDatastore._prepare_role_modify_args s user role =
        (some u, some r) ∧
      ((r.name ∈ u.role_names ∧ b = true ∧
        s' = put_user s { u with role_names := u.role_names.erase r.name } ∧
        l = [{ u with role_names := u.role_names.erase r.name }]) ∨
       (r.name ∉ u.role_names ∧ b = false ∧ s' = s ∧ l = [])) := by
  unfold NDBUserDatastore.remove_role_from_user at heq
  rcases hp : NDBUserDatastore._prepare_role_modify_args s user role with ⟨ou, orr⟩
  rw [hp] at heq
  cases ou with
  | none => cases orr <;> simp at heq
  | some u =>
    cases orr with
    | none => simp at heq
    | some r =>
      refine ⟨u, r, rfl, ?_⟩
      by_cases hmem : r.name ∈ u.role_names
      · simp only [if_pos hmem, Option.some.injEq, Prod.mk.injEq] at heq
        exact Or.inl ⟨hmem, heq.1.symm, heq.2.1.symm, heq.2.2.symm⟩
      · simp only [if_neg hmem, Option.some.injEq, Prod.mk.injEq] at heq
        exact Or.inr ⟨hmem, heq.1.symm, heq.2.1.symm, heq.2.2.symm⟩

/-- A user resolved by `_prepare_role_modify_args` from an admissible
argument is an entity of the store. -/
theorem prepare_user_mem {s : NDBState} {user : Sum NDBUser String}
    {role : Sum Role String} {u : NDBUser} {orr : Option Role}
    (harg : user_arg_ok s user)
    (hp : NDBUserDatastore._prepare_role_modify_args s user role =
      (some u, orr)) :
    u ∈ s.users := by
  cases user with
  | inl u0 =>
    unfold NDBUserDatastore._prepare_role_modify_args at hp
    simp only [Prod.mk.injEq, Option.some.injEq] at hp
    exact hp.1 ▸ harg
  | inr str =>
    unfold NDBUserDatastore._prepare_role_modify_args at hp
    simp only [Prod.mk.injEq] at hp
    exact find_user_mem hp.1

/-- Claim C6 (amended): in every state reachable through the datastore's
public operations — with `create_user` called only with role lists naming
no role twice (the restriction the counterexample forces) — every user's
role collection names each role at most once: `add_role_to_user` appends
only absent names, `remove_role_from_user` only erases, and `create_user`
under the restriction resolves a duplicate-free name list. -/
theorem role_membership_at_most_once {s : NDBState}
    (h : NDBUserDatastore.ReachableND s) :
    ∀ u ∈ s.users, u.role_names.Nodup := by
  induction h with
  | init =>
    intro u hu
    exact absurd hu (by simp)
  | step_create_role s n d _ ih =>
    intro u hu
    rw [show (NDBUserDatastore.create_role s n d).2.users = s.users from
      put_role_users s _] at hu
    exact ih u hu
  | step_find_or_create_role s n d _ ih =>
    intro u hu
    rw [find_or_create_role_users s n d] at hu
    exact ih u hu
  | step_create_user s e un act roles u s' _ hnd heq ih =>
    simp only [NDBUserDatastore.create_user,
      UserDatastore._prepare_create_user_args] at heq
    cases hns : NDBUserDatastore.role_names_of
        (roles.map (fun ra => NDBUserDatastore.find_role s (role_arg_name ra)))
      with
    | none => rw [hns] at heq; exact absurd heq (by simp)
    | some ns =>
      rw [hns] at heq
      simp only [Option.some.injEq, Prod.mk.injEq] at heq
      intro v hv
      rw [← heq.2] at hv
      have hns' : ns.Nodup := by
        rw [role_names_of_resolved s roles ns hns]
        exact hnd
      exact put_user_forall ih hns' v hv
  | step_add_role s user role b s' l _ harg heq ih =>
    obtain ⟨u, r, hp, hcases⟩ := add_role_to_user_some heq
    rcases hcases with ⟨_, _, hs', _⟩ | ⟨hmem, _, hs', _⟩
    · exact hs' ▸ ih
    · subst hs'
      exact put_user_forall ih
        (nodup_append_singleton (ih u (prepare_user_mem harg hp)) hmem)
  | step_remove_role s user role b s' l _ harg heq ih =>
    obtain ⟨u, r, hp, hcases⟩ := remove_role_from_user_some heq
    rcases hcases with ⟨_, _, hs', _⟩ | ⟨_, _, hs', _⟩
    · subst hs'
      exact put_user_forall ih ((ih u (prepare_user_mem harg hp)).erase r.name)
    · exact hs' ▸ ih
  | step_delete_user s u _ ih =>
    intro v hv
    exact ih v (List.mem_filter.mp hv).1

/-- Claim C1: for the NDB backend, `get_user` resolves its argument by the
three-tier policy tried in order — an integer input is a primary-key fetch;
a string input is lowercased and looked up by exact email match first, then
by exact username match; none when all tiers miss. In particular, for the
stored user with id 7, email "a@x.com" and username "bob": `get_user 7`,
`get_user "A@X.COM"` and `get_user "bob"` return that user, and
`get_user "nope"` returns none. -/
theorem get_user_three_tier_policy (s : NDBState) (i : Nat) (str : String) :
    NDBUserDatastore.get_user s (Sum.inl i) = get_by_id s i ∧
    NDBUserDatastore.get_user s (Sum.inr str) =
      ((query_email s (py_lower str)).orElse
        (fun _ => query_username s (py_lower str))) ∧
    NDBUserDatastore.get_user bob_state (Sum.inl 7) = some bob_user ∧
    NDBUserDatastore.get_user bob_state (Sum.inr "A@X.COM") = some bob_user ∧
    NDBUserDatastore.get_user bob_state (Sum.inr "bob") = some bob_user ∧
    NDBUserDatastore.get_user bob_state (Sum.inr "nope") = none := by
  refine ⟨rfl, ?_, by decide, by decide, by decide, by decide⟩
  cases he : query_email s (py_lower str) with
  | some u => simp [NDBUserDatastore.get_user, he, Option.orElse]
  | none =>
    cases hu : query_username s (py_lower str) <;>
      simp [NDBUserDatastore.get_user, he, hu, Option.orElse]

/-- Claim C8: `activate_user` returns `True` and sets the active flag
exactly when the user was inactive, and on an already-active user returns
`False` leaving the user unchanged; `deactivate_user` is symmetric;
`toggle_active` always returns `True` and applying it twice restores the
active flag to its original value. -/
theorem active_toggle_round_trip (u : User) :
    (u.active = false →
      UserDatastore.activate_user u = ({ u with active := true }, true)) ∧
    (u.active = true → UserDatastore.activate_user u = (u, false)) ∧
    (u.active = true →
      UserDatastore.deactivate_user u = ({ u with active := false }, true)) ∧
    (u.active = false → UserDatastore.deactivate_user u = (u, false)) ∧
    (UserDatastore.toggle_active u).2 = true ∧
    ((UserDatastore.toggle_active (UserDatastore.toggle_active u).1).1).active
      = u.active := by
  refine ⟨?_, ?_, ?_, ?_, rfl, ?_⟩
  · intro h; simp [UserDatastore.activate_user, h]
  · intro h; simp [UserDatastore.activate_user, h]
  · intro h; simp [UserDatastore.deactivate_user, h]
  · intro h; simp [UserDatastore.deactivate_user, h]
  · simp [UserDatastore.toggle_active]

/-- Witness for C8 at a concrete inactive user. -/
theorem active_toggle_round_trip_witness :
    UserDatastore.activate_user c8_user = ({ c8_user with active := true }, true) ∧
    UserDatastore.deactivate_user c8_user = (c8_user, false) :=
  ⟨(active_toggle_round_trip c8_user).1 rfl,
   (active_toggle_round_trip c8_user).2.2.2.1 rfl⟩

/-- Claim C4: `add_role_to_user` is idempotent, on the generic datastore
and on the NDB backend: for every user and role, a role not yet a member is
appended, the user is persisted and `True` returned; on any user already
holding the role nothing changes, nothing is persisted and `False` is
returned. Hence two successive calls on the same user and role (starting
from a non-member) yield `True` then `False` and leave the role appearing
exactly once in the membership. -/
theorem add_role_to_user_idempotent
    (find_user : String → Option User) (find_role : String → Option Role)
    (u : User) (r : Role) (s : NDBState) (nu : NDBUser) (nr : Role) :
    (some r ∉ u.roles →
      UserDatastore.add_role_to_user find_user find_role
          (Sum.inl u) (Sum.inl r)
        = some (true, { u with roles := u.roles ++ [some r] }, true)) ∧
    (some r ∈ u.roles →
      UserDatastore.add_role_to_user find_user find_role
          (Sum.inl u) (Sum.inl r)
        = some (false, u, false)) ∧
    (some r ∉ u.roles →
      UserDatastore.add_role_to_user find_user find_role
          (Sum.inl { u with roles := u.roles ++ [some r] }) (Sum.inl r)
        = some (false, { u with roles := u.roles ++ [some r] }, false) ∧
      (u.roles ++ [some r]).count (some r) = 1) ∧
    (nr.name ∉ nu.role_names →
      NDBUserDatastore.add_role_to_user s (Sum.inl nu) (Sum.inl nr)
        = some (true,
            put_user s { nu with role_names := nu.role_names ++ [nr.name] },
            [{ nu with role_names := nu.role_names ++ [nr.name] }])) ∧
    (nr.name ∈ nu.role_names →
      NDBUserDatastore.add_role_to_user s (Sum.inl nu) (Sum.inl nr)
        = some (false, s, [])) ∧
    (nr.name ∉ nu.role_names →
      NDBUserDatastore.add_role_to_user
          (put_user s { nu with role_names := nu.role_names ++ [nr.name] })
          (Sum.inl { nu with role_names := nu.role_names ++ [nr.name] })
          (Sum.inl nr)
        = some (false,
            put_user s { nu with role_names := nu.role_names ++ [nr.name] },
            []) ∧
      (nu.role_names ++ [nr.name]).count nr.name = 1) := by
  refine ⟨?_, ?_, ?_, ?_, ?_, ?_⟩
  · intro h
    simp [UserDatastore.add_role_to_user,
      UserDatastore._prepare_role_modify_args, h]
  · intro h
    simp [UserDatastore.add_role_to_user,
      UserDatastore._prepare_role_modify_args, h]
  · intro h
    constructor
    · simp [UserDatastore.add_role_to_user,
        UserDatastore._prepare_role_modify_args]
    · simp [List.count_append, List.count_eq_zero.mpr h]
  · intro h
    simp [NDBUserDatastore.add_role_to_user,
      NDBUserDatastore._prepare_role_modify_args, h]
  · intro h
    simp [NDBUserDatastore.add_role_to_user,
      NDBUserDatastore._prepare_role_modify_args, h]
  · intro h
    constructor
    · simp [NDBUserDatastore.add_role_to_user,
        NDBUserDatastore._prepare_role_modify_args]
    · simp [List.count_append, List.count_eq_zero.mpr h]

/-- Witness for C4: a first `add_role_to_user` call on a concrete user not
yet carrying the role returns `True`, and a call on a concrete user already
holding the role (in arbitrary position of its membership) returns `False`
changing nothing, on both backends. -/
theorem add_role_to_user_idempotent_witness :
    UserDatastore.add_role_to_user (fun _ => none) (fun _ => none)
        (Sum.inl c4_user) (Sum.inl admin_role)
      = some (true, { c4_user with roles := c4_user.roles ++ [some admin_role] },
              true) ∧
    UserDatastore.add_role_to_user (fun _ => none) (fun _ => none)
        (Sum.inl c7_user) (Sum.inl admin_role)
      = some (false, c7_user, false) ∧
    NDBUserDatastore.add_role_to_user c4_state (Sum.inl c4_nuser)
        (Sum.inl admin_role)
      = some (true,
          put_user c4_state
            { c4_nuser with
              role_names := c4_nuser.role_names ++ [admin_role.name] },
          [{ c4_nuser with
             role_names := c4_nuser.role_names ++ [admin_role.name] }]) ∧
    NDBUserDatastore.add_role_to_user c7_state (Sum.inl c7_nuser)
        (Sum.inl admin_role)
      = some (false, c7_state, []) := by
  have h1 := add_role_to_user_idempotent (fun _ => none) (fun _ => none)
    c4_user admin_role c4_state c4_nuser admin_role
  have h2 := add_role_to_user_idempotent (fun _ => none) (fun _ => none)
    c7_user admin_role c7_state c7_nuser admin_role
  exact ⟨h1.1 (by decide), h2.2.1 (by decide), h1.2.2.2.1 (by decide),
    h2.2.2.2.2.1 (by decide)⟩

/-- Claim C7: `remove_role_from_user` removes a member role (first
occurrence; under the duplicate-free membership invariant the role is then
no longer a member) persisting the user and returning `True`; removing a
non-member role returns `False` and leaves the user and the store
unchanged, with no persistence call — on both backends. -/
theorem remove_role_from_user_member_iff
    (find_user : String → Option User) (find_role : String → Option Role)
    (u : User) (r : Role) (s : NDBState) (nu : NDBUser) (nr : Role) :
    (some r ∈ u.roles →
      UserDatastore.remove_role_from_user find_user find_role
          (Sum.inl u) (Sum.inl r)
        = some (true, { u with roles := u.roles.erase (some r) }, true)) ∧
    (some r ∉ u.roles →
      UserDatastore.remove_role_from_user find_user find_role
          (Sum.inl u) (Sum.inl r)
        = some (false, u, false)) ∧
    (u.roles.Nodup → some r ∉ u.roles.erase (some r)) ∧
    (nr.name ∈ nu.role_names →
      NDBUserDatastore.remove_role_from_user s (Sum.inl nu) (Sum.inl nr)
        = some (true,
            put_user s { nu with role_names := nu.role_names.erase nr.name },
            [{ nu with role_names := nu.role_names.erase nr.name }])) ∧
    (nr.name ∉ nu.role_names →
      NDBUserDatastore.remove_role_from_user s (Sum.inl nu) (Sum.inl nr)
        = some (false, s, [])) ∧
    (nu.role_names.Nodup → nr.name ∉ nu.role_names.erase nr.name) := by
  refine ⟨?_, ?_, ?_, ?_, ?_, ?_⟩
  · intro h
    simp [UserDatastore.remove_role_from_user,
      UserDatastore._prepare_role_modify_args, h]
  · intro h
    simp [UserDatastore.remove_role_from_user,
      UserDatastore._prepare_role_modify_args, h]
  · intro h
    exact h.not_mem_erase
  · intro h
    simp [NDBUserDatastore.remove_role_from_user,
      NDBUserDatastore._prepare_role_modify_args, h]
  · intro h
    simp [NDBUserDatastore.remove_role_from_user,
      NDBUserDatastore._prepare_role_modify_args, h]
  · intro h
    exact h.not_mem_erase

/-- Witness for C7: removing the member role "admin" from a concrete user
returns `True` and erases it (generic backend); removing the non-member
role "editor" from the NDB user returns `False` with the store untouched
and nothing saved. -/
theorem remove_role_from_user_member_iff_witness :
    UserDatastore.remove_role_from_user (fun _ => none) (fun _ => none)
        (Sum.inl c7_user) (Sum.inl admin_role)
      = some (true, { c7_user with roles := c7_user.roles.erase (some admin_role) },
              true) ∧
    NDBUserDatastore.remove_role_from_user c7_state (Sum.inl c7_nuser)
        (Sum.inl { name := "editor", description := "" })
      = some (false, c7_state, []) := by
  have h1 := remove_role_from_user_member_iff (fun _ => none) (fun _ => none)
    c7_user admin_role c7_state c7_nuser admin_role
  have h2 := remove_role_from_user_member_iff (fun _ => none) (fun _ => none)
    c7_user admin_role c7_state c7_nuser { name := "editor", description := "" }
  exact ⟨h1.1 (by decide), h2.2.2.2.2.1 (by decide)⟩

/-- Claim C9: `find_or_create_role` is idempotent by name — an existing
role of that name is returned with nothing created; otherwise a role of
that name is created, persisted and returned. Called twice with the same
name it returns the same role both times, the second call changes nothing,
and (the store holding at most one role of the name to begin with, as the
name is the role's key) exactly one role of that name exists afterwards. -/
theorem find_or_create_role_idempotent (s : NDBState) (n d d2 : String)
    (h : (s.roles.filter (fun r => r.name == n)).length ≤ 1) :
    (NDBUserDatastore.find_or_create_role s n d).1.name = n ∧
    (∀ r, NDBUserDatastore.find_role s n = some r →
      NDBUserDatastore.find_or_create_role s n d = (r, s)) ∧
    (NDBUserDatastore.find_or_create_role
        (NDBUserDatastore.find_or_create_role s n d).2 n d2).1
      = (NDBUserDatastore.find_or_create_role s n d).1 ∧
    (NDBUserDatastore.find_or_create_role
        (NDBUserDatastore.find_or_create_role s n d).2 n d2).2
      = (NDBUserDatastore.find_or_create_role s n d).2 ∧
    (((NDBUserDatastore.find_or_create_role s n d).2).roles.filter
        (fun r => r.name == n)).length = 1 := by
  cases hfr : NDBUserDatastore.find_role s n with
  | some r =>
    have hname : r.name = n := find_role_name hfr
    have hfc : NDBUserDatastore.find_or_create_role s n d = (r, s) := by
      simp [NDBUserDatastore.find_or_create_role, hfr]
    have hfc2 : NDBUserDatastore.find_or_create_role s n d2 = (r, s) := by
      simp [NDBUserDatastore.find_or_create_role, hfr]
    have hfr' : s.roles.find? (fun x => x.name == n) = some r := hfr
    refine ⟨by rw [hfc]; exact hname, ?_, by rw [hfc, hfc2], by rw [hfc, hfc2], ?_⟩
    · intro r' h'
      simp only [Option.some.injEq] at h'
      rw [hfc, h']
    · rw [hfc]
      show (s.roles.filter (fun x => x.name == n)).length = 1
      have hp : (r.name == n) = true := by
        have hfs := List.find?_some hfr'
        simpa using hfs
      have hmem : r ∈ s.roles.filter (fun x => x.name == n) :=
        List.mem_filter.mpr ⟨List.mem_of_find?_eq_some hfr', hp⟩
      have hpos : 0 < (s.roles.filter (fun x => x.name == n)).length :=
        List.length_pos.mpr (List.ne_nil_of_mem hmem)
      omega
  | none =>
    have hall : ∀ x ∈ s.roles, ¬(x.name == n) = true :=
      List.find?_eq_none.mp hfr
    have hput : put_role s { name := n, description := d } =
        { s with roles := s.roles ++ [{ name := n, description := d }] } := by
      unfold put_role
      rw [if_neg]
      simp only [List.any_eq_true, not_exists, not_and]
      intro x hx
      exact hall x hx
    have hfc : NDBUserDatastore.find_or_create_role s n d =
        ({ name := n, description := d },
         { s with roles := s.roles ++ [{ name := n, description := d }] }) := by
      simp [NDBUserDatastore.find_or_create_role, hfr,
        NDBUserDatastore.create_role, hput]
    have hfind2 : NDBUserDatastore.find_role
        { s with roles := s.roles ++ [{ name := n, description := d }] } n
        = some { name := n, description := d } := by
      unfold NDBUserDatastore.find_role query_role_name
      simp only [List.find?_append]
      rw [List.find?_eq_none.mpr hall]
      simp
    have hfc2 : NDBUserDatastore.find_or_create_role
        { s with roles := s.roles ++ [{ name := n, description := d }] } n d2
        = ({ name := n, description := d },
           { s with roles := s.roles ++ [{ name := n, description := d }] }) := by
      simp [NDBUserDatastore.find_or_create_role, hfind2]
    refine ⟨by rw [hfc], ?_, by rw [hfc, hfc2], by rw [hfc, hfc2], ?_⟩
    · intro r' h'
      exact absurd h'.symm (by simp)
    · rw [hfc]
      simp only [List.filter_append]
      rw [List.filter_eq_nil_iff.mpr hall]
      simp

/-- Witness for C9: on an empty store, `find_or_create_role "admin"` called
twice returns the role named "admin" both times and leaves exactly one role
of that name. -/
theorem find_or_create_role_idempotent_witness :
    (NDBUserDatastore.find_or_create_role c9_state "admin" "d").1.name
      = "admin" ∧
    (((NDBUserDatastore.find_or_create_role c9_state "admin" "d").2).roles.filter
        (fun r => r.name == "admin")).length = 1 := by
  have h := find_or_create_role_idempotent c9_state "admin" "d" "d"
    (by decide)
  exact ⟨h.1, h.2.2.2.2⟩

/-- Claim C10: `toggle_active`, `activate_user` and `deactivate_user`
mutate only the user's in-memory active flag: run against the NDB backend
they leave the store unchanged and save no entity — unlike
`add_role_to_user`, which saves the user when the role was absent. The flag
change is durable only if the caller persists the user separately. -/
theorem toggle_activate_no_persistence (s : NDBState) (u : NDBUser)
    (r : Role) :
    (NDBUserDatastore.toggle_active s u).2.2.1 = s ∧
    (NDBUserDatastore.toggle_active s u).2.2.2 = [] ∧
    (NDBUserDatastore.toggle_active s u).1 = { u with active := !u.active } ∧
    (NDBUserDatastore.activate_user s u).2.2.1 = s ∧
    (NDBUserDatastore.activate_user s u).2.2.2 = [] ∧
    (NDBUserDatastore.deactivate_user s u).2.2.1 = s ∧
    (NDBUserDatastore.deactivate_user s u).2.2.2 = [] ∧
    (r.name ∉ u.role_names →
      NDBUserDatastore.add_role_to_user s (Sum.inl u) (Sum.inl r)
        = some (true,
            put_user s { u with role_names := u.role_names ++ [r.name] },
            [{ u with role_names := u.role_names ++ [r.name] }])) := by
  refine ⟨rfl, rfl, rfl, ?_, ?_, ?_, ?_, ?_⟩
  · unfold NDBUserDatastore.activate_user; split <;> rfl
  · unfold NDBUserDatastore.activate_user; split <;> rfl
  · unfold NDBUserDatastore.deactivate_user; split <;> rfl
  · unfold NDBUserDatastore.deactivate_user; split <;> rfl
  · intro h
    simp [NDBUserDatastore.add_role_to_user,
      NDBUserDatastore._prepare_role_modify_args, h]

/-- Witness for C10 at a concrete store and user. -/
theorem toggle_activate_no_persistence_witness :
    (NDBUserDatastore.toggle_active c10_state c10_nuser).2.2.1 = c10_state ∧
    NDBUserDatastore.add_role_to_user c10_state (Sum.inl c10_nuser)
        (Sum.inl admin_role)
      = some (true,
          put_user c10_state
            { c10_nuser with
              role_names := c10_nuser.role_names ++ [admin_role.name] },
          [{ c10_nuser with
             role_names := c10_nuser.role_names ++ [admin_role.name] }]) := by
  have h := toggle_activate_no_persistence c10_state c10_nuser admin_role
  exact ⟨h.1, h.2.2.2.2.2.2.2 (by decide)⟩

/-- Counterexample to claim C5 as stated: for a store holding a user whose
key id is 0, the primary-key fetch for 0 returns that user, but
`find_user(id=0)` returns none — the guard `if id:` is Python truthiness,
so the integer 0 falls through the id tier. -/
theorem find_user_id_zero_counterexample :
    get_by_id c5_state 0 = some c5_user ∧
    NDBUserDatastore.find_user c5_state none (some 0) = none := by
  constructor <;> decide

/-- Claim C5 (amended): NDB `find_user` implements the id/email logic of
`get_user` without the username fallback, for *truthy* arguments: for every
nonzero id it returns the primary-key fetch; for every nonempty email
string it returns the user whose stored email equals the lowercased
argument; a falsy argument (`id=0`, empty or absent email) falls through
and yields none; and it never matches by username — when no stored email
equals the lowercased argument it returns none, whatever the usernames. -/
theorem find_user_no_username_fallback (s : NDBState) (i : Nat) (e : String)
    (hi : i ≠ 0) (he : e ≠ "") :
    NDBUserDatastore.find_user s none (some i) = get_by_id s i ∧
    NDBUserDatastore.find_user s (some e) none = query_email s (py_lower e) ∧
    NDBUserDatastore.find_user s none none = none ∧
    NDBUserDatastore.find_user s (some "") none = none ∧
    NDBUserDatastore.find_user s none (some 0) = none ∧
    ((∀ u ∈ s.users, u.email ≠ py_lower e) →
      NDBUserDatastore.find_user s (some e) none = none) := by
  refine ⟨?_, ?_, rfl, rfl, rfl, ?_⟩
  · simp [NDBUserDatastore.find_user, truthy_nat, hi]
  · simp [NDBUserDatastore.find_user, truthy_nat, truthy_str, he]
  · intro hall
    simp only [NDBUserDatastore.find_user, truthy_nat, truthy_str]
    rw [if_neg (by simp), if_pos (by simp [he])]
    apply List.find?_eq_none.mpr
    intro u hu
    simpa using hall u hu

/-- Witness for C5: on the example store of C1 (user with email "a@x.com",
username "bob"), `find_user(id=7)` fetches by key, `find_user(email=
"A@X.COM")` finds the user by lowercased email, and `find_user(email=
"bob")` returns none although `get_user("bob")` would find the user by
username. -/
theorem find_user_no_username_fallback_witness :
    NDBUserDatastore.find_user bob_state none (some 7) = some bob_user ∧
    NDBUserDatastore.find_user bob_state (some "A@X.COM") none
      = some bob_user ∧
    NDBUserDatastore.find_user bob_state (some "bob") none = none := by
  have h7 := find_user_no_username_fallback bob_state 7 "A@X.COM"
    (by decide) (by decide)
  have hb := find_user_no_username_fallback bob_state 7 "bob"
    (by decide) (by decide)
  refine ⟨?_, ?_, ?_⟩
  · rw [h7.1]; decide
  · rw [h7.2.1]; decide
  · exact hb.2.2.2.2.2 (by decide)

/-- Counterexample to claim C2 as stated: on the NDB backend, with the role
string "nope" that `find_role` fails to resolve, `add_role_to_user` and
`remove_role_from_user` raise (`role.name` on Python `None`; embedded
result `none`) instead of behaving as "role not present". -/
theorem role_modify_unresolved_raises :
    NDBUserDatastore.find_role c2_state "nope" = none ∧
    NDBUserDatastore.add_role_to_user c2_state (Sum.inl c2_nuser)
        (Sum.inr "nope") = none ∧
    NDBUserDatastore.remove_role_from_user c2_state (Sum.inl c2_nuser)
        (Sum.inr "nope") = none := by
  refine ⟨by decide, by decide, by decide⟩

/-- Claim C2 (amended): a `find_user`/`find_role` miss itself returns none,
never an error, but the role-modify operations do not uniformly tolerate
the unresolved value. In the generic datastore an unresolved *role* string
does not raise: the membership check treats the absent value as an ordinary
element — "role not present" when the list holds no such value, so `add`
appends it. An unresolved *user* string in the generic datastore, and an
unresolved user or role in the NDB backend, make the operation raise an
attribute error. -/
theorem role_modify_unresolved_behavior
    (find_user : String → Option User) (find_role : String → Option Role)
    (u : User) (rs us : String) (s : NDBState) (nu : NDBUser)
    (ns nus : String) (role : Sum Role String)
    (hr : find_role rs = none) (hu : find_user us = none)
    (hns : NDBUserDatastore.find_role s ns = none)
    (hnus : NDBUserDatastore.find_user s (some nus) none = none) :
    (UserDatastore.add_role_to_user find_user find_role (Sum.inl u)
        (Sum.inr rs)).isSome = true ∧
    (none ∉ u.roles →
      UserDatastore.add_role_to_user find_user find_role (Sum.inl u)
          (Sum.inr rs)
        = some (true, { u with roles := u.roles ++ [none] }, true)) ∧
    (UserDatastore.remove_role_from_user find_user find_role (Sum.inl u)
        (Sum.inr rs)).isSome = true ∧
    UserDatastore.add_role_to_user find_user find_role (Sum.inr us)
        (Sum.inr rs) = none ∧
    UserDatastore.remove_role_from_user find_user find_role (Sum.inr us)
        (Sum.inr rs) = none ∧
    NDBUserDatastore.add_role_to_user s (Sum.inl nu) (Sum.inr ns) = none ∧
    NDBUserDatastore.remove_role_from_user s (Sum.inl nu) (Sum.inr ns)
      = none ∧
    NDBUserDatastore.add_role_to_user s (Sum.inr nus) role = none ∧
    NDBUserDatastore.remove_role_from_user s (Sum.inr nus) role = none := by
  refine ⟨?_, ?_, ?_, ?_, ?_, ?_, ?_, ?_, ?_⟩
  · by_cases h : (none : Option Role) ∈ u.roles <;>
      simp [UserDatastore.add_role_to_user,
        UserDatastore._prepare_role_modify_args, hr, h]
  · intro h
    simp [UserDatastore.add_role_to_user,
      UserDatastore._prepare_role_modify_args, hr, h]
  · by_cases h : (none : Option Role) ∈ u.roles <;>
      simp [UserDatastore.remove_role_from_user,
        UserDatastore._prepare_role_modify_args, hr, h]
  · simp [UserDatastore.add_role_to_user,
      UserDatastore._prepare_role_modify_args, hu]
  · simp [UserDatastore.remove_role_from_user,
      UserDatastore._prepare_role_modify_args, hu]
  · simp [NDBUserDatastore.add_role_to_user,
      NDBUserDatastore._prepare_role_modify_args, hns]
  · simp [NDBUserDatastore.remove_role_from_user,
      NDBUserDatastore._prepare_role_modify_args, hns]
  · cases role <;>
      simp [NDBUserDatastore.add_role_to_user,
        NDBUserDatastore._prepare_role_modify_args, hnus]
  · cases role <;>
      simp [NDBUserDatastore.remove_role_from_user,
        NDBUserDatastore._prepare_role_modify_args, hnus]

/-- Witness for the amended C2 at concrete inputs: the generic datastore
appends the absent value for an unresolved role and returns `True`; the NDB
backend raises for an unresolved user string. -/
theorem role_modify_unresolved_behavior_witness :
    UserDatastore.add_role_to_user (fun _ => none) (fun _ => none)
        (Sum.inl c2_guser) (Sum.inr "nope")
      = some (true, { c2_guser with roles := c2_guser.roles ++ [none] },
              true) ∧
    NDBUserDatastore.add_role_to_user c2_state (Sum.inr "ghost")
        (Sum.inr "nope") = none := by
  have h := role_modify_unresolved_behavior (fun _ => none) (fun _ => none)
    c2_guser "nope" "ghost" c2_state c2_nuser "nope" "ghost" (Sum.inr "nope")
    rfl rfl (by decide) (by decide)
  exact ⟨h.2.1 (by decide), h.2.2.2.2.2.2.2.1⟩

/-- Counterexample to claim C3 as stated: on the NDB backend, `create_user`
with the single role name "ghost" that `find_role` fails to resolve raises
(`r.name` over the list holding Python `None`; embedded result `none`) —
no user is constructed or persisted, rather than a user with zero roles. -/
theorem create_user_unresolved_role_raises :
    NDBUserDatastore.find_role c3_state "ghost" = none ∧
    NDBUserDatastore.create_user c3_state "e@x.com" none none
        [Sum.inr "ghost"] = none := by
  constructor <;> decide

/-- Claim C3 (amended): for a role name that `find_role` fails to resolve,
the generic datastore's `create_user` constructs and persists the user
normally but with the absent placeholder in its roles list — zero actual
roles resolved, one list entry — while the NDB backend's `create_user`
raises an attribute error and persists nothing. -/
theorem create_user_unresolved_role
    (find_role : String → Option Role) (n e : String) (un : Option String)
    (act : Option Bool) (s : NDBState)
    (hn : find_role n = none)
    (hs : NDBUserDatastore.find_role s n = none) :
    UserDatastore.create_user find_role e un act [Sum.inr n]
      = ({ email := e, username := un, active := act.getD true,
           roles := [none] }, true) ∧
    NDBUserDatastore.create_user s e un act [Sum.inr n] = none := by
  constructor
  · simp [UserDatastore.create_user, UserDatastore._prepare_create_user_args,
      role_arg_name, hn]
  · simp [NDBUserDatastore.create_user,
      UserDatastore._prepare_create_user_args, role_arg_name, hs,
      NDBUserDatastore.role_names_of]

/-- Witness for the amended C3 at concrete inputs. -/
theorem create_user_unresolved_role_witness :
    UserDatastore.create_user (fun _ => none) "e@x.com" none none
        [Sum.inr "ghost"]
      = ({ email := "e@x.com", username := none, active := true,
           roles := [none] }, true) ∧
    NDBUserDatastore.create_user c3_state "e@x.com" none none
        [Sum.inr "ghost"] = none := by
  have h := create_user_unresolved_role (fun _ => none) "ghost" "e@x.com"
    none none c3_state rfl (by decide)
  exact ⟨h.1, h.2⟩

/-- Counterexample to claim C6 as stated: starting from the empty store,
`create_role("admin")` followed by
`create_user(roles=["admin", "admin"])` — both public operations — reaches
a state whose user carries the role name "admin" twice in its membership:
`_prepare_create_user_args` resolves each entry of the list independently
and nothing deduplicates it. -/
theorem role_membership_duplicate_reachable :
    NDBUserDatastore.Reachable dup_state2 ∧ dup_user ∈ dup_state2.users ∧
    ¬ dup_user.role_names.Nodup := by
  refine ⟨?_, by decide, by decide⟩
  have h0 : NDBUserDatastore.Reachable dup_state0 :=
    NDBUserDatastore.Reachable.init
  have he : (NDBUserDatastore.create_role dup_state0 "admin" "").2
      = dup_state1 := by decide
  have h1 : NDBUserDatastore.Reachable dup_state1 :=
    he ▸ NDBUserDatastore.Reachable.step_create_role dup_state0 "admin" "" h0
  exact NDBUserDatastore.Reachable.step_create_user dup_state1 "d@x.com"
    none none [Sum.inr "admin", Sum.inr "admin"] dup_user dup_state2 h1
    (by decide)

/-- Witness for the amended C6 at a concrete reachable state: the user
created with the duplicate-free role list ["admin"] has duplicate-free
membership. -/
theorem role_membership_at_most_once_witness :
    good_user.role_names.Nodup := by
  have h0 : NDBUserDatastore.ReachableND dup_state0 :=
    NDBUserDatastore.ReachableND.init
  have he : (NDBUserDatastore.create_role dup_state0 "admin" "").2
      = dup_state1 := by decide
  have h1 : NDBUserDatastore.ReachableND dup_state1 :=
    he ▸ NDBUserDatastore.ReachableND.step_create_role dup_state0 "admin" "" h0
  have h2 : NDBUserDatastore.ReachableND good_state :=
    NDBUserDatastore.ReachableND.step_create_user dup_state1 "g@x.com" none
      none [Sum.inr "admin"] good_user good_state h1 (by decide) (by decide)
  exact role_membership_at_most_once h2 good_user (by decide)

end FlaskSecurity
